import Mathlib

/-!
Shallow embedding of `native/src/foam_gl_renderer.cpp` (the `FoamRenderer`
class and its C-linkage boundary) for verifying the design specification.

Modelling conventions:
* `float` values stored or compared by the renderer are modelled as `ℚ`
  (the renderer only copies, negates and multiplies them; no float
  rounding behaviour is claim-relevant).
* GL object names are `ℕ`.  `glGenFramebuffers` / `glGenTextures` /
  `glGenRenderbuffers` are modelled as fresh-name allocators with one
  counter per GL name space (`nextFbo`, `nextTex`, `nextRbo`): a newly
  generated name is unused, hence distinct from the live one it replaces.
* Caller-supplied arrays are Lean lists; copying `n` elements from a
  pointer is `List.take n` of the list (callers guarantee the arrays are
  long enough, per the spec's validity contract).
* `cos` / `sin` of the stored rotation angles (and `tan` of the half
  field-of-view) are not rational, so `render` receives them through an
  oracle `trig : ℚ → ℚ × ℚ` (angle ↦ (cos, sin)) and a value
  `tanHalfFov : ℚ` standing for `tan(radians(45°)/2)`.  Both are pure
  functions of the stored state, so determinism arguments are unaffected.
* The GL context state mutated by `render` (bound framebuffer, bound
  vertex array, current program, polygon mode) is part of the state
  record; the draw work itself is recorded as a trace of `RenderCmd`s.
-/

set_option maxHeartbeats 1000000

abbrev V3 : Type := ℚ × ℚ × ℚ

abbrev Mat4 : Type := Matrix (Fin 4) (Fin 4) ℚ

/-- The `MeshRepresentation` enum from `foam_gl_renderer.h`
(WIREFRAME = 0, SURFACE = 1, SURFACE_WITH_EDGES = 2). -/
inductive MeshRepresentation : Type
  | wireframe
  | surface
  | surfaceWithEdges
deriving DecidableEq, Repr

/-- The `DataMode` enum from `foam_gl_renderer.h` (CELL = 0, POINT = 1). -/
inductive DataMode : Type
  | cell
  | point
deriving DecidableEq, Repr

/-- The `FoamRenderer` class members, plus the GL context registers it
mutates and the fresh-name counters of the modelled GL name spaces. -/
structure FoamState : Type where
  width : ℤ
  height : ℤ
  surface_shader : ℕ
  edge_shader : ℕ
  surface_vao : ℕ
  surface_vbo : ℕ
  surface_ebo : ℕ
  surface_color_vbo : ℕ
  edge_vao : ℕ
  edge_vbo : ℕ
  edge_ebo : ℕ
  fbo : ℕ
  texture : ℕ
  rbo : ℕ
  vertices : List ℚ
  indices : List ℕ
  vertex_colors : List ℚ
  cell_colors : List ℚ
  vertex_count : ℕ
  index_count : ℕ
  cell_count : ℕ
  rotation_x : ℚ
  rotation_y : ℚ
  zoom : ℚ
  mesh_center : V3
  representation : MeshRepresentation
  data_mode : DataMode
  gpuSurfacePos : List ℚ
  gpuSurfaceColor : List ℚ
  gpuSurfaceIdx : List ℕ
  gpuEdgePos : List ℚ
  gpuEdgeIdx : List ℕ
  textureDims : ℤ × ℤ
  boundFramebuffer : ℕ
  boundVertexArray : ℕ
  currentProgram : ℕ
  polygonModeLine : Bool
  nextFbo : ℕ
  nextTex : ℕ
  nextRbo : ℕ

/-- The default-vertex-color loop of `update_mesh_data` (lines 277-283):
`vertex_colors` is resized to `4·vert_count` and position `i` receives
`(0.5, 0.7, 1.0, 1.0)`, for `i = 0, …, vert_count−1` in ascending order. -/
def defaultVertexColors : ℕ → List ℚ
  | 0 => []
  | n + 1 => defaultVertexColors n ++ [1/2, 7/10, 1, 1]

/-- Model of `FoamRenderer::create_framebuffer` (lines 181-212): deletes the old
framebuffer/texture/renderbuffer objects and generates fresh ones, sizing
the colour texture's backing store to `(w, h)`; ends with the framebuffer
binding restored to 0. -/
def create_framebuffer (s : FoamState) (w h : ℤ) : FoamState :=
  { s with
    fbo := s.nextFbo
    texture := s.nextTex
    rbo := s.nextRbo
    nextFbo := s.nextFbo + 1
    nextTex := s.nextTex + 1
    nextRbo := s.nextRbo + 1
    textureDims := (w, h)
    boundFramebuffer := 0 }

/-- The `FoamRenderer` constructor (lines 89-155): default member values
(empty mesh, rotations 0.3, zoom 500, centre at the origin, surface
representation, per-point data mode), shader and buffer objects created,
then `create_framebuffer(width, height)`.  GL names are allocated per
name space; generated names start at 1 (0 is the reserved null name). -/
def mkRenderer (w h : ℤ) : FoamState :=
  create_framebuffer
    { width := w
      height := h
      surface_shader := 1
      edge_shader := 2
      surface_vao := 1
      surface_vbo := 1
      surface_ebo := 2
      surface_color_vbo := 3
      edge_vao := 2
      edge_vbo := 4
      edge_ebo := 5
      fbo := 0
      texture := 0
      rbo := 0
      vertices := []
      indices := []
      vertex_colors := []
      cell_colors := []
      vertex_count := 0
      index_count := 0
      cell_count := 0
      rotation_x := 3/10
      rotation_y := 3/10
      zoom := 500
      mesh_center := (0, 0, 0)
      representation := MeshRepresentation.surface
      data_mode := DataMode.point
      gpuSurfacePos := []
      gpuSurfaceColor := []
      gpuSurfaceIdx := []
      gpuEdgePos := []
      gpuEdgeIdx := []
      textureDims := (0, 0)
      boundFramebuffer := 0
      boundVertexArray := 0
      currentProgram := 0
      polygonModeLine := false
      nextFbo := 1
      nextTex := 1
      nextRbo := 1 } w h

/-- Model of `FoamRenderer::upload_mesh_to_gpu` (lines 294-328): copies the CPU
mirrors into the surface buffer set (positions, colours, indices) and the
edge buffer set (positions, indices), leaving the vertex-array binding
at 0. -/
def upload_mesh_to_gpu (s : FoamState) : FoamState :=
  { s with
    gpuSurfacePos := s.vertices
    gpuSurfaceColor := s.vertex_colors
    gpuSurfaceIdx := s.indices
    gpuEdgePos := s.vertices
    gpuEdgeIdx := s.indices
    boundVertexArray := 0 }

/-- Model of `FoamRenderer::update_mesh_data` (lines 260-292): stores the counts,
copies `vert_count·3` positions and `ind_count` indices, copies
`vert_count·4` vertex colours or synthesises the default colour per
vertex when the colour pointer is null, copies `c_count·4` cell colours
only when that pointer is non-null, then uploads to the GPU. -/
def update_mesh_data (s : FoamState) (verts : List ℚ) (vert_count : ℕ)
    (inds : List ℕ) (ind_count : ℕ) (colors : Option (List ℚ))
    (c_colors : Option (List ℚ)) (c_count : ℕ) : FoamState :=
  upload_mesh_to_gpu
    { s with
      vertex_count := vert_count
      index_count := ind_count
      cell_count := c_count
      vertices := verts.take (vert_count * 3)
      indices := inds.take ind_count
      vertex_colors :=
        match colors with
        | some cs => cs.take (vert_count * 4)
        | none => defaultVertexColors vert_count
      cell_colors :=
        match c_colors with
        | some cc => cc.take (c_count * 4)
        | none => s.cell_colors }

/-- Model of `FoamRenderer::resize` (lines 405-409): store the new size and
recreate the framebuffer at that size. -/
def resize (s : FoamState) (w h : ℤ) : FoamState :=
  create_framebuffer { s with width := w, height := h } w h

/-- The rotation matrix built inside `glm::rotate` (Rodrigues formula, in
mathematical row/column convention; entry `(r, j)` is glm's
`Rotate[j][r]`).  glm normalises the axis first; both call sites pass a
unit axis, on which normalisation is the identity. -/
def rodrigues (c s : ℚ) (a : V3) (row col : ℕ) : ℚ :=
  match row, col with
  | 0, 0 => c + (1 - c) * a.1 * a.1
  | 0, 1 => (1 - c) * a.2.1 * a.1 - s * a.2.2
  | 0, 2 => (1 - c) * a.2.2 * a.1 + s * a.2.1
  | 1, 0 => (1 - c) * a.1 * a.2.1 + s * a.2.2
  | 1, 1 => c + (1 - c) * a.2.1 * a.2.1
  | 1, 2 => (1 - c) * a.2.2 * a.2.1 - s * a.1
  | 2, 0 => (1 - c) * a.1 * a.2.2 - s * a.2.1
  | 2, 1 => (1 - c) * a.2.1 * a.2.2 + s * a.1
  | 2, 2 => c + (1 - c) * a.2.2 * a.2.2
  | _, _ => 0

/-- Model of `glm::translate(m, v)`: columns 0-2 are those of `m`; column 3 is
`m[0]·v₀ + m[1]·v₁ + m[2]·v₂ + m[3]`. -/
def glmTranslate (m : Mat4) (v : V3) : Mat4 :=
  Matrix.of fun i j =>
    if j = 3 then m i 0 * v.1 + m i 1 * v.2.1 + m i 2 * v.2.2 + m i 3
    else m i j

/-- Model of `glm::rotate(m, angle, axis)` with `c = cos angle`, `s = sin angle`:
column `j < 3` of the result is `m[0]·R[j][0] + m[1]·R[j][1] + m[2]·R[j][2]`
and column 3 is `m[3]`. -/
def glmRotate (m : Mat4) (c s : ℚ) (a : V3) : Mat4 :=
  Matrix.of fun i j =>
    if j = 3 then m i 3
    else m i 0 * rodrigues c s a 0 (j : ℕ) + m i 1 * rodrigues c s a 1 (j : ℕ)
      + m i 2 * rodrigues c s a 2 (j : ℕ)

/-- Model of `glm::perspective(fovy, aspect, zNear, zFar)` (right-handed, clip
space −1..1), transcribed column by column from glm with
`tanHalfFovy = tan(fovy/2)`:
`m[0][0] = 1/(aspect·t)`, `m[1][1] = 1/t`,
`m[2][2] = −(f+n)/(f−n)`, `m[2][3] = −1`, `m[3][2] = −2fn/(f−n)`. -/
def glmPerspective (tanHalfFovy aspect zNear zFar : ℚ) : Mat4 :=
  Matrix.of fun i j =>
    if j = 0 then (if i = 0 then 1 / (aspect * tanHalfFovy) else 0)
    else if j = 1 then (if i = 1 then 1 / tanHalfFovy else 0)
    else if j = 2 then
      (if i = 2 then -(zFar + zNear) / (zFar - zNear)
       else if i = 3 then -1 else 0)
    else (if i = 2 then -(2 * zFar * zNear) / (zFar - zNear) else 0)

/-- The model matrix computed in `render` (lines 347-350):
identity, translated by `−mesh_center`, rotated by `rotation_y` about
`(0,1,0)`, rotated by `rotation_x` about `(1,0,0)`. -/
def modelMatrix (rx ry : ℚ) (center : V3) (trig : ℚ → ℚ × ℚ) : Mat4 :=
  glmRotate
    (glmRotate (glmTranslate (1 : Mat4) (-center.1, -center.2.1, -center.2.2))
      (trig ry).1 (trig ry).2 (0, 1, 0))
    (trig rx).1 (trig rx).2 (1, 0, 0)

/-- The view matrix computed in `render` (lines 352-353):
identity translated by `(0, 0, −zoom)`. -/
def viewMatrix (zoom : ℚ) : Mat4 :=
  glmTranslate (1 : Mat4) (0, 0, -zoom)

/-- The projection matrix computed in `render` (lines 355-356):
`glm::perspective(radians(45°), width/height, 0.1, 10000)`, with
`tanHalfFov` standing for `tan(radians(45°)/2)`. -/
def projectionMatrix (w h : ℤ) (tanHalfFov : ℚ) : Mat4 :=
  glmPerspective tanHalfFov ((w : ℚ) / (h : ℚ)) (1/10) 10000

/-- The observable GPU work issued by one `render` call: the clear, and
each `glDrawElements` with the program, matrix uniforms, optional edge
colour uniform, polygon mode, index count and bound vertex array in
effect at the draw. -/
inductive RenderCmd : Type
  | clear (r g b a : ℚ)
  | draw (program : ℕ) (model view proj : Mat4)
      (edgeColor : Option (ℚ × ℚ × ℚ × ℚ)) (polygonLine : Bool)
      (count : ℕ) (vao : ℕ)

/-- Model of `FoamRenderer::render` (lines 330-403).  Returns the state after the
call, the returned texture name, and the trace of clear/draw commands.
The empty-mesh fast path returns right after the clear; otherwise the
surface pass runs for SURFACE and SURFACE_WITH_EDGES and the edge pass
for WIREFRAME and SURFACE_WITH_EDGES (blue lines for pure wireframe,
semi-transparent black for the overlay), and the bindings are reset. -/
def render (s0 : FoamState) (trig : ℚ → ℚ × ℚ) (tanHalfFov : ℚ) :
    FoamState × ℕ × List RenderCmd :=
  let s := { s0 with boundFramebuffer := s0.fbo }
  if s.vertex_count = 0 ∨ s.index_count = 0 then
    ({ s with boundFramebuffer := 0 }, s.texture,
      [RenderCmd.clear (117/1000) (117/1000) (117/1000) 1])
  else
    let mo := modelMatrix s.rotation_x s.rotation_y s.mesh_center trig
    let vi := viewMatrix s.zoom
    let pr := projectionMatrix s.width s.height tanHalfFov
    let surfaceOn : Prop := s.representation = MeshRepresentation.surface ∨
      s.representation = MeshRepresentation.surfaceWithEdges
    let edgeOn : Prop := s.representation = MeshRepresentation.wireframe ∨
      s.representation = MeshRepresentation.surfaceWithEdges
    let s1 :=
      if surfaceOn then
        { s with currentProgram := s.surface_shader,
                 boundVertexArray := s.surface_vao }
      else s
    let surfCmds :=
      if surfaceOn then
        [RenderCmd.draw s.surface_shader mo vi pr none false s.index_count
          s.surface_vao]
      else []
    let s2 :=
      if edgeOn then
        { s1 with currentProgram := s.edge_shader,
                  boundVertexArray := s.edge_vao,
                  polygonModeLine := false }
      else s1
    let edgeCmds :=
      if edgeOn then
        [RenderCmd.draw s.edge_shader mo vi pr
          (some (if s.representation = MeshRepresentation.wireframe then
                   ((1:ℚ)/4, (1:ℚ)/2, (1:ℚ), (1:ℚ))
                 else ((0:ℚ), (0:ℚ), (0:ℚ), (3:ℚ)/10)))
          true s.index_count s.edge_vao]
      else []
    ({ s2 with boundVertexArray := 0, boundFramebuffer := 0 },
      s.texture,
      RenderCmd.clear (117/1000) (117/1000) (117/1000) 1 :: (surfCmds ++ edgeCmds))

/-- Model of `foam_renderer_create` (lines 415-417). -/
def foam_renderer_create (w h : ℤ) : Option FoamState :=
  some (mkRenderer w h)

/-- Model of `foam_renderer_destroy` (lines 419-423): deletes the renderer when
the handle is non-null, silently no-ops on null. -/
def foam_renderer_destroy : Option FoamState → Option FoamState
  | some _ => none
  | none => none

/-- Model of `foam_renderer_update_mesh` (lines 425-439): forwards to
`update_mesh_data` on a non-null handle, no-ops on null. -/
def foam_renderer_update_mesh (h : Option FoamState) (verts : List ℚ)
    (vertex_count : ℕ) (inds : List ℕ) (index_count : ℕ)
    (colors : Option (List ℚ)) (cell_colors : Option (List ℚ))
    (cell_count : ℕ) : Option FoamState :=
  match h with
  | some s => some (update_mesh_data s verts vertex_count inds index_count
      colors cell_colors cell_count)
  | none => none

/-- Model of `foam_renderer_set_view` (lines 441-457): overwrites the view fields
on a non-null handle, no-ops on null. -/
def foam_renderer_set_view (h : Option FoamState) (rx ry z cx cy cz : ℚ) :
    Option FoamState :=
  match h with
  | some s => some { s with
      rotation_x := rx
      rotation_y := ry
      zoom := z
      mesh_center := (cx, cy, cz) }
  | none => none

/-- Model of `foam_renderer_set_mode` (lines 459-469): overwrites the mode fields
on a non-null handle, no-ops on null. -/
def foam_renderer_set_mode (h : Option FoamState) (rep : MeshRepresentation)
    (dm : DataMode) : Option FoamState :=
  match h with
  | some s => some { s with representation := rep, data_mode := dm }
  | none => none

/-- Model of `foam_renderer_render` (lines 471-477): renders and returns the
texture name on a non-null handle; returns 0 on null. -/
def foam_renderer_render (h : Option FoamState) (trig : ℚ → ℚ × ℚ)
    (tanHalfFov : ℚ) : Option FoamState × ℕ :=
  match h with
  | some s =>
    let r := render s trig tanHalfFov
    (some r.1, r.2.1)
  | none => (none, 0)

/-- Model of `foam_renderer_resize` (lines 479-484): resizes on a non-null
handle, no-ops on null. -/
def foam_renderer_resize (h : Option FoamState) (w hh : ℤ) :
    Option FoamState :=
  match h with
  | some s => some (resize s w hh)
  | none => none

/-- Model of `foam_renderer_get_texture` (lines 486-492): returns the current
colour texture name, or 0 on a null handle. -/
def foam_renderer_get_texture : Option FoamState → ℕ
  | some s => s.texture
  | none => 0

-- Spec-side definitions (from the specification's wording, to be
-- compared with the source-derived definitions above).

/-- Spec-side: rotation of a point about the X axis by an angle with
cosine `c` and sine `s`. -/
def rotXact (c s : ℚ) (p : V3) : V3 :=
  (p.1, c * p.2.1 - s * p.2.2, s * p.2.1 + c * p.2.2)

/-- Spec-side: rotation of a point about the Y axis by an angle with
cosine `c` and sine `s`. -/
def rotYact (c s : ℚ) (p : V3) : V3 :=
  (c * p.1 + s * p.2.2, p.2.1, -s * p.1 + c * p.2.2)

/-- The affine action of a 4×4 matrix on a 3D point: multiply the
homogeneous column vector `(p, 1)` and keep the first three entries. -/
def affineApply (m : Mat4) (p : V3) : V3 :=
  let v : Fin 4 → ℚ := fun i =>
    if i = 0 then p.1 else if i = 1 then p.2.1 else if i = 2 then p.2.2 else 1
  (m.mulVec v 0, m.mulVec v 1, m.mulVec v 2)

/-- Spec-side: the perspective projection matrix with half-fov tangent
`t`, aspect ratio `a`, near plane `n` and far plane `f`. -/
def perspectiveSpec (t a n f : ℚ) : Mat4 :=
  !![1 / (a * t), 0, 0, 0;
     0, 1 / t, 0, 0;
     0, 0, -(f + n) / (f - n), -(2 * f * n) / (f - n);
     0, 0, -1, 0]

/-- Spec-side: a pure translation matrix by `v`. -/
def translationSpec (v : V3) : Mat4 :=
  !![1, 0, 0, v.1;
     0, 1, 0, v.2.1;
     0, 0, 1, v.2.2;
     0, 0, 0, 1]

/-- Every draw command in a trace carries exactly the given model, view
and projection matrices (clears carry none). -/
def tracesUse (mo vi pr : Mat4) (l : List RenderCmd) : Prop :=
  ∀ c ∈ l, match c with
    | RenderCmd.clear _ _ _ _ => True
    | RenderCmd.draw _ m v p _ _ _ _ => m = mo ∧ v = vi ∧ p = pr

/-- A trace issues no draw call. -/
def noDraw (l : List RenderCmd) : Prop :=
  ∀ c ∈ l, match c with
    | RenderCmd.clear _ _ _ _ => True
    | RenderCmd.draw _ _ _ _ _ _ _ _ => False

/-- The defaults installed by the `FoamRenderer` constructor: empty mesh,
rotations 0.3, zoom 500, centre at the origin, surface representation,
per-point data mode. -/
def isDefaultState (s : FoamState) : Prop :=
  s.vertex_count = 0 ∧ s.index_count = 0 ∧ s.cell_count = 0 ∧
  s.rotation_x = 3/10 ∧ s.rotation_y = 3/10 ∧ s.zoom = 500 ∧
  s.mesh_center = (0, 0, 0) ∧
  s.representation = MeshRepresentation.surface ∧
  s.data_mode = DataMode.point

/-- Operations that are not `set_view`, `set_mode` or `update_mesh`:
renders (with their trig oracle), resizes, and texture queries. -/
inductive PassiveOp : Type
  | doRender (trig : ℚ → ℚ × ℚ) (tanHalfFov : ℚ)
  | doResize (w h : ℤ)
  | doGetTexture

/-- Apply one passive operation to the renderer state. -/
def applyPassive (s : FoamState) : PassiveOp → FoamState
  | PassiveOp.doRender trig t => (render s trig t).1
  | PassiveOp.doResize w h => resize s w h
  | PassiveOp.doGetTexture => s

/-- Apply a sequence of passive operations in order. -/
def applyPassives (s : FoamState) (ops : List PassiveOp) : FoamState :=
  ops.foldl applyPassive s

/-- Operations other than `resize` (and `create`/`destroy`): renders
(with their trig oracle), mesh uploads, view and mode updates, and
texture queries. -/
inductive NonResizeOp : Type
  | doRender (trig : ℚ → ℚ × ℚ) (tanHalfFov : ℚ)
  | doUpdateMesh (verts : List ℚ) (vc : ℕ) (inds : List ℕ) (ic : ℕ)
      (colors : Option (List ℚ)) (ccolors : Option (List ℚ)) (cc : ℕ)
  | doSetView (rx ry z cx cy cz : ℚ)
  | doSetMode (rep : MeshRepresentation) (dm : DataMode)
  | doGetTexture

/-- Apply one non-resize operation to the renderer state (the member
assignments of `foam_renderer_set_view`, lines 450-455, and
`foam_renderer_set_mode`, lines 464-467, written directly). -/
def applyNonResize (s : FoamState) : NonResizeOp → FoamState
  | NonResizeOp.doRender trig t => (render s trig t).1
  | NonResizeOp.doUpdateMesh verts vc inds ic colors ccolors cc =>
      update_mesh_data s verts vc inds ic colors ccolors cc
  | NonResizeOp.doSetView rx ry z cx cy cz =>
      { s with
        rotation_x := rx
        rotation_y := ry
        zoom := z
        mesh_center := (cx, cy, cz) }
  | NonResizeOp.doSetMode rep dm =>
      { s with representation := rep, data_mode := dm }
  | NonResizeOp.doGetTexture => s

/-- Apply a sequence of non-resize operations in order. -/
def applyNonResizes (s : FoamState) (ops : List NonResizeOp) : FoamState :=
  ops.foldl applyNonResize s

-- Helper lemmas (shared between claims).

lemma defaultVertexColors_length (n : ℕ) :
    (defaultVertexColors n).length = 4 * n := by
  induction n with
  | zero => rfl
  | succ m ih =>
    simp [defaultVertexColors, ih]
    omega

lemma defaultVertexColors_get (n i : ℕ) (h : i < n) :
    ((defaultVertexColors n)[4 * i]? = some (1/2)) ∧
    ((defaultVertexColors n)[4 * i + 1]? = some (7/10)) ∧
    ((defaultVertexColors n)[4 * i + 2]? = some 1) ∧
    ((defaultVertexColors n)[4 * i + 3]? = some 1) := by
  induction n with
  | zero => exact absurd h (Nat.not_lt_zero i)
  | succ m ih =>
    have hl := defaultVertexColors_length m
    rcases Nat.lt_or_ge i m with hi | hi
    · obtain ⟨h0, h1, h2, h3⟩ := ih hi
      refine ⟨?_, ?_, ?_, ?_⟩ <;>
        rw [defaultVertexColors, List.getElem?_append_left (by omega)] <;>
        assumption
    · have him : i = m := by omega
      subst him
      refine ⟨?_, ?_, ?_, ?_⟩ <;>
        rw [defaultVertexColors, List.getElem?_append_right (by omega)] <;>
        simp [hl]

lemma update_mesh_vertex_colors_none (s : FoamState) (verts : List ℚ)
    (n : ℕ) (inds : List ℕ) (ic : ℕ) (ccolors : Option (List ℚ)) (cc : ℕ) :
    (update_mesh_data s verts n inds ic none ccolors cc).vertex_colors =
      defaultVertexColors n := by
  simp [update_mesh_data, upload_mesh_to_gpu]

-- C1

/-- C1 (counterexample): an `update_mesh` call whose `cell_colors`
argument is null does not discard the previously stored per-cell colors:
after uploading cell colors `[1,0,0,1]` and then uploading a fresh mesh
with a null `cell_colors` argument and `cell_count = 0`, the stored
per-cell color array is still `[1,0,0,1]`, not empty. -/
theorem update_mesh_null_cell_colors_retained :
    (update_mesh_data
      (update_mesh_data (mkRenderer 8 6) [1,2,3] 1 [0,1,2] 3 none
        (some [1,0,0,1]) 1)
      [4,5,6] 1 [0,1,2] 3 none none 0).cell_colors = [1,0,0,1] ∧
    ([1,0,0,1] : List ℚ) ≠ [] := by
  exact ⟨rfl, by simp⟩

/-- C1 (amended): for every `update_mesh` call with valid arrays, the
stored counts, positions, indices and per-vertex colors afterwards are
exactly the data derived from this call's arguments (with the pale-blue
default synthesized when the vertex-color argument is null), and both
GPU buffer sets receive the new positions and indices; the per-cell
colors are replaced only when the `cell_colors` argument is non-null —
when it is null, the previously stored per-cell colors are retained
(only `cell_count` is overwritten). -/
theorem update_mesh_replaces_snapshot (s : FoamState) (verts : List ℚ)
    (vc : ℕ) (inds : List ℕ) (ic : ℕ) (colors : Option (List ℚ))
    (ccolors : Option (List ℚ)) (cc : ℕ)
    (hv : verts.length = vc * 3) (hi : inds.length = ic)
    (hc : ∀ cs, colors = some cs → cs.length = vc * 4)
    (hcc : ∀ l, ccolors = some l → l.length = cc * 4)
    (r : FoamState)
    (hr : r = update_mesh_data s verts vc inds ic colors ccolors cc) :
    r.vertex_count = vc ∧ r.index_count = ic ∧ r.cell_count = cc ∧
    r.vertices = verts ∧ r.indices = inds ∧
    r.vertex_colors = (match colors with
      | some cs => cs
      | none => defaultVertexColors vc) ∧
    r.cell_colors = (match ccolors with
      | some l => l
      | none => s.cell_colors) ∧
    r.gpuSurfacePos = verts ∧ r.gpuSurfaceColor = r.vertex_colors ∧
    r.gpuSurfaceIdx = inds ∧ r.gpuEdgePos = verts ∧ r.gpuEdgeIdx = inds := by
  subst hr
  have h1 : verts.take (vc * 3) = verts := by
    rw [← hv]; exact List.take_length verts
  have h2 : inds.take ic = inds := by
    rw [← hi]; exact List.take_length inds
  cases colors with
  | some cs =>
    have h3 : cs.take (vc * 4) = cs := by
      rw [← hc cs rfl]; exact List.take_length cs
    cases ccolors with
    | some l =>
      have h4 : l.take (cc * 4) = l := by
        rw [← hcc l rfl]; exact List.take_length l
      simp [update_mesh_data, upload_mesh_to_gpu, h1, h2, h3, h4]
    | none =>
      simp [update_mesh_data, upload_mesh_to_gpu, h1, h2, h3]
  | none =>
    cases ccolors with
    | some l =>
      have h4 : l.take (cc * 4) = l := by
        rw [← hcc l rfl]; exact List.take_length l
      simp [update_mesh_data, upload_mesh_to_gpu, h1, h2, h4]
    | none =>
      simp [update_mesh_data, upload_mesh_to_gpu, h1, h2]

/-- Witness for `update_mesh_replaces_snapshot` at a concrete call. -/
theorem update_mesh_replaces_snapshot_witness :
    (update_mesh_data (mkRenderer 8 6) [1,2,3] 1 [0,1,2] 3
      (some [1,1,1,1]) none 0).vertices = [1,2,3] := by
  exact (update_mesh_replaces_snapshot (mkRenderer 8 6) [1,2,3] 1 [0,1,2] 3
    (some [1,1,1,1]) none 0 rfl rfl
    (fun cs h => by injection h with h; subst h; rfl)
    (fun l h => nomatch h)
    _ rfl).2.2.2.1

-- C5

/-- C5: every entry point of the C boundary called with a null handle is
a silent no-op (the handle stays null and no state is produced), with
`render` returning 0 and `get_texture` returning 0. -/
theorem null_handle_noop :
    foam_renderer_destroy none = none ∧
    (∀ verts vc inds ic colors ccolors cc,
      foam_renderer_update_mesh none verts vc inds ic colors ccolors cc
        = none) ∧
    (∀ rx ry z cx cy cz,
      foam_renderer_set_view none rx ry z cx cy cz = none) ∧
    (∀ rep dm, foam_renderer_set_mode none rep dm = none) ∧
    (∀ trig t, foam_renderer_render none trig t = (none, 0)) ∧
    (∀ w hh, foam_renderer_resize none w hh = none) ∧
    foam_renderer_get_texture none = 0 := by
  exact ⟨rfl, fun _ _ _ _ _ _ _ => rfl, fun _ _ _ _ _ _ => rfl,
    fun _ _ => rfl, fun _ _ => rfl, fun _ _ => rfl, rfl⟩

-- C7

/-- C7: an `update_mesh` call whose vertex-color argument is null stores
a per-vertex color array of length `4·vertex_count` in which every
vertex's color is exactly `(0.5, 0.7, 1.0, 1.0)`. -/
theorem update_mesh_default_color (s : FoamState) (verts : List ℚ)
    (n : ℕ) (inds : List ℕ) (ic : ℕ) (ccolors : Option (List ℚ)) (cc : ℕ) :
    (update_mesh_data s verts n inds ic none ccolors cc).vertex_colors.length
      = 4 * n ∧
    ∀ i : ℕ, i < n →
      ((update_mesh_data s verts n inds ic none ccolors cc).vertex_colors[4 * i]?
          = some (1/2) ∧
       (update_mesh_data s verts n inds ic none ccolors cc).vertex_colors[4 * i + 1]?
          = some (7/10) ∧
       (update_mesh_data s verts n inds ic none ccolors cc).vertex_colors[4 * i + 2]?
          = some 1 ∧
       (update_mesh_data s verts n inds ic none ccolors cc).vertex_colors[4 * i + 3]?
          = some 1) := by
  rw [update_mesh_vertex_colors_none]
  exact ⟨defaultVertexColors_length n, fun i hi => defaultVertexColors_get n i hi⟩

/-- Witness for `update_mesh_default_color` at a concrete call. -/
theorem update_mesh_default_color_witness :
    (update_mesh_data (mkRenderer 8 6) [1,2,3] 1 [0,1,2] 3 none none
      0).vertex_colors[4 * 0]? = some (1/2) := by
  exact ((update_mesh_default_color (mkRenderer 8 6) [1,2,3] 1 [0,1,2] 3
    none 0).2 0 (by decide)).1

-- C8

/-- C8 (counterexample): the function `update_mesh_data` performs no validation of
the supplied index count, so after a call with `ind_count = 4` the
stored `index_count` is 4, which is not a multiple of 3. -/
theorem update_mesh_index_count_not_multiple_of_three :
    (update_mesh_data (mkRenderer 8 6) [1,2,3] 1 [0,1,2,0] 4 none none
      0).index_count = 4 ∧
    ¬ (3 ∣ (update_mesh_data (mkRenderer 8 6) [1,2,3] 1 [0,1,2,0] 4 none
      none 0).index_count) := by
  exact ⟨rfl, by decide⟩

/-- C8 (amended): after every `update_mesh` call whose position array is
valid (`length = vertex_count·3`) the stored position array's length
equals `vertex_count·3`; the stored `index_count` is a multiple of 3
exactly when the caller passes an index count that is a multiple of 3 —
the code performs no validation of its own. -/
theorem update_mesh_invariant (s : FoamState) (verts : List ℚ) (vc : ℕ)
    (inds : List ℕ) (ic : ℕ) (colors : Option (List ℚ))
    (ccolors : Option (List ℚ)) (cc : ℕ)
    (hv : verts.length = vc * 3) (h3 : 3 ∣ ic) :
    (update_mesh_data s verts vc inds ic colors ccolors cc).vertices.length
      = (update_mesh_data s verts vc inds ic colors ccolors cc).vertex_count
        * 3 ∧
    3 ∣ (update_mesh_data s verts vc inds ic colors ccolors cc).index_count
    := by
  constructor
  · simp [update_mesh_data, upload_mesh_to_gpu, List.length_take, hv]
  · simpa [update_mesh_data, upload_mesh_to_gpu] using h3

/-- Witness for `update_mesh_invariant` at a concrete call. -/
theorem update_mesh_invariant_witness :
    (update_mesh_data (mkRenderer 8 6) [1,2,3] 1 [0,1,2] 3 none none
      0).vertices.length =
    (update_mesh_data (mkRenderer 8 6) [1,2,3] 1 [0,1,2] 3 none none
      0).vertex_count * 3 := by
  exact (update_mesh_invariant (mkRenderer 8 6) [1,2,3] 1 [0,1,2] 3 none
    none 0 rfl (by decide)).1

-- Render-state helper lemmas.

lemma render_state_shape (s : FoamState) (trig : ℚ → ℚ × ℚ) (t : ℚ) :
    ∃ bv cp pm, (render s trig t).1 =
      { s with boundFramebuffer := 0, boundVertexArray := bv,
               currentProgram := cp, polygonModeLine := pm } := by
  by_cases hvc : s.vertex_count = 0 ∨ s.index_count = 0
  · refine ⟨s.boundVertexArray, s.currentProgram, s.polygonModeLine, ?_⟩
    simp [render, hvc]
  · rcases hrep : s.representation with _ | _ | _
    · refine ⟨0, s.edge_shader, false, ?_⟩
      simp [render, hvc, hrep]
    · refine ⟨0, s.surface_shader, s.polygonModeLine, ?_⟩
      simp [render, hvc, hrep]
    · refine ⟨0, s.edge_shader, false, ?_⟩
      simp [render, hvc, hrep]

lemma render_returns_texture (s : FoamState) (trig : ℚ → ℚ × ℚ) (t : ℚ) :
    (render s trig t).2.1 = s.texture := by
  by_cases hvc : s.vertex_count = 0 ∨ s.index_count = 0
  · simp [render, hvc]
  · simp [render, hvc]

-- C6

/-- C6: a `render` call leaves the whole MeshSnapshot (vertices, indices,
per-vertex colors, per-cell colors, the three counts), the ViewState
(rotations, zoom, mesh center) and the DisplayMode (representation,
data mode) unchanged. -/
theorem render_read_only (s : FoamState) (trig : ℚ → ℚ × ℚ) (t : ℚ) :
    (render s trig t).1.vertices = s.vertices ∧
    (render s trig t).1.indices = s.indices ∧
    (render s trig t).1.vertex_colors = s.vertex_colors ∧
    (render s trig t).1.cell_colors = s.cell_colors ∧
    (render s trig t).1.vertex_count = s.vertex_count ∧
    (render s trig t).1.index_count = s.index_count ∧
    (render s trig t).1.cell_count = s.cell_count ∧
    (render s trig t).1.rotation_x = s.rotation_x ∧
    (render s trig t).1.rotation_y = s.rotation_y ∧
    (render s trig t).1.zoom = s.zoom ∧
    (render s trig t).1.mesh_center = s.mesh_center ∧
    (render s trig t).1.representation = s.representation ∧
    (render s trig t).1.data_mode = s.data_mode := by
  obtain ⟨bv, cp, pm, h⟩ := render_state_shape s trig t
  rw [h]
  exact ⟨rfl, rfl, rfl, rfl, rfl, rfl, rfl, rfl, rfl, rfl, rfl, rfl, rfl⟩

-- C2

/-- C2: when `vertex_count = 0` or `index_count = 0`, `render` only
clears the target to the fixed dark gray and returns the current color
texture name without issuing any draw call; and on a freshly created
instance the value returned by `render` equals the value returned by
`get_texture`. -/
theorem render_empty_fast_path (s : FoamState) (trig : ℚ → ℚ × ℚ) (t : ℚ)
    (w h : ℤ)
    (hempty : s.vertex_count = 0 ∨ s.index_count = 0) :
    (render s trig t).2.2 =
      [RenderCmd.clear (117/1000) (117/1000) (117/1000) 1] ∧
    noDraw (render s trig t).2.2 ∧
    (render s trig t).2.1 = s.texture ∧
    (foam_renderer_render (foam_renderer_create w h) trig t).2 =
      foam_renderer_get_texture (foam_renderer_create w h) := by
  have htrace : (render s trig t).2.2 =
      [RenderCmd.clear (117/1000) (117/1000) (117/1000) 1] := by
    simp [render, hempty]
  refine ⟨htrace, ?_, render_returns_texture s trig t, ?_⟩
  · rw [htrace]
    intro c hc
    simp at hc
    subst hc
    trivial
  · simp [foam_renderer_render, foam_renderer_create,
      foam_renderer_get_texture, render_returns_texture]

/-- Witness for `render_empty_fast_path` on a freshly created renderer. -/
theorem render_empty_fast_path_witness :
    (render (mkRenderer 8 6) (fun _ => (1, 0)) 1).2.1 =
      (mkRenderer 8 6).texture := by
  exact (render_empty_fast_path (mkRenderer 8 6) (fun _ => (1, 0)) 1 8 6
    (Or.inl rfl)).2.2.1

-- C4

lemma nonresize_preserves_texture (s : FoamState) (op : NonResizeOp) :
    (applyNonResize s op).texture = s.texture ∧
    (applyNonResize s op).nextTex = s.nextTex := by
  cases op with
  | doRender trig t =>
    obtain ⟨bv, cp, pm, h⟩ := render_state_shape s trig t
    show (render s trig t).1.texture = s.texture ∧
      (render s trig t).1.nextTex = s.nextTex
    rw [h]
    exact ⟨rfl, rfl⟩
  | doUpdateMesh verts vc inds ic colors ccolors cc =>
    exact ⟨rfl, rfl⟩
  | doSetView rx ry z cx cy cz => exact ⟨rfl, rfl⟩
  | doSetMode rep dm => exact ⟨rfl, rfl⟩
  | doGetTexture => exact ⟨rfl, rfl⟩

lemma nonresizes_preserve_texture (ops : List NonResizeOp) (s : FoamState) :
    (applyNonResizes s ops).texture = s.texture ∧
    (applyNonResizes s ops).nextTex = s.nextTex := by
  induction ops generalizing s with
  | nil => exact ⟨rfl, rfl⟩
  | cons op rest ih =>
    obtain ⟨h1, h2⟩ := nonresize_preserves_texture s op
    obtain ⟨h3, h4⟩ := ih (applyNonResize s op)
    exact ⟨h3.trans h1, h4.trans h2⟩

/-- C4: across any sequence of operations that contains no `resize`
(renders, mesh uploads, view and mode updates, texture queries), the
stored texture name is unchanged, so every `render` call in such a
stretch returns the same texture name and `get_texture` agrees with it;
a `resize` — even one following such a sequence — destroys the texture
object and generates a fresh one, so the name it installs differs from
the previously returned one (fresh names never collide with the live
texture, an invariant established at construction and preserved by
`resize`). -/
theorem texture_stable_unless_resize (s : FoamState)
    (ops : List NonResizeOp) (trig : ℚ → ℚ × ℚ) (t : ℚ) (w h : ℤ)
    (hfresh : s.texture < s.nextTex) :
    (applyNonResizes s ops).texture = s.texture ∧
    (applyNonResizes s ops).nextTex = s.nextTex ∧
    (render (applyNonResizes s ops) trig t).2.1 = s.texture ∧
    foam_renderer_get_texture (some (applyNonResizes s ops)) = s.texture ∧
    (resize (applyNonResizes s ops) w h).texture ≠ s.texture ∧
    (resize (applyNonResizes s ops) w h).texture <
      (resize (applyNonResizes s ops) w h).nextTex ∧
    (mkRenderer w h).texture < (mkRenderer w h).nextTex := by
  obtain ⟨ht, hn⟩ := nonresizes_preserve_texture ops s
  have hres : (resize (applyNonResizes s ops) w h).texture = s.nextTex := by
    show (applyNonResizes s ops).nextTex = s.nextTex
    exact hn
  refine ⟨ht, hn, ?_, ?_, ?_, ?_, Nat.lt_succ_self 1⟩
  · rw [render_returns_texture]
    exact ht
  · exact ht
  · rw [hres]
    exact fun hcontra => absurd hcontra.symm (Nat.ne_of_lt hfresh)
  · exact Nat.lt_succ_self (applyNonResizes s ops).nextTex

/-- Witness for `texture_stable_unless_resize`: on a fresh renderer, a
render after an intervening mesh upload and view change still returns
the original texture name, and a resize after them installs a
different one. -/
theorem texture_stable_unless_resize_witness :
    (render
      (applyNonResizes (mkRenderer 8 6)
        [NonResizeOp.doUpdateMesh [1,2,3] 1 [0,1,2] 3 none none 0,
         NonResizeOp.doSetView 0 0 100 0 0 0])
      (fun _ => (1, 0)) 1).2.1 = (mkRenderer 8 6).texture ∧
    (resize
      (applyNonResizes (mkRenderer 8 6)
        [NonResizeOp.doUpdateMesh [1,2,3] 1 [0,1,2] 3 none none 0,
         NonResizeOp.doSetView 0 0 100 0 0 0])
      4 4).texture ≠ (mkRenderer 8 6).texture := by
  exact ⟨(texture_stable_unless_resize (mkRenderer 8 6)
      [NonResizeOp.doUpdateMesh [1,2,3] 1 [0,1,2] 3 none none 0,
       NonResizeOp.doSetView 0 0 100 0 0 0]
      (fun _ => (1, 0)) 1 4 4 (by decide)).2.2.1,
    (texture_stable_unless_resize (mkRenderer 8 6)
      [NonResizeOp.doUpdateMesh [1,2,3] 1 [0,1,2] 3 none none 0,
       NonResizeOp.doSetView 0 0 100 0 0 0]
      (fun _ => (1, 0)) 1 4 4 (by decide)).2.2.2.2.1⟩

-- C9

/-- C9: calling `render` twice with no state change between the calls
produces identical output both times — the same texture name and the
same trace of clear/draw commands (with the same matrices, colors,
geometry and index counts). -/
theorem render_idempotent (s : FoamState) (trig : ℚ → ℚ × ℚ) (t : ℚ) :
    (render (render s trig t).1 trig t).2 = (render s trig t).2 := by
  obtain ⟨bv, cp, pm, h⟩ := render_state_shape s trig t
  rw [h]
  by_cases hvc : s.vertex_count = 0 ∨ s.index_count = 0
  · simp [render, hvc]
  · rcases hrep : s.representation with _ | _ | _ <;>
      simp [render, hvc, hrep, modelMatrix, viewMatrix, projectionMatrix]

-- C10

lemma passive_preserves_defaults (s : FoamState) (op : PassiveOp)
    (hs : isDefaultState s) : isDefaultState (applyPassive s op) := by
  cases op with
  | doRender trig t =>
    obtain ⟨bv, cp, pm, h⟩ := render_state_shape s trig t
    show isDefaultState (render s trig t).1
    rw [h]
    exact hs
  | doResize w hh =>
    obtain ⟨h1, h2, h3, h4, h5, h6, h7, h8, h9⟩ := hs
    exact ⟨h1, h2, h3, h4, h5, h6, h7, h8, h9⟩
  | doGetTexture => exact hs

/-- C10: a freshly created renderer has an empty mesh (all three counts
zero), rotations 0.3 about X and Y, zoom 500, mesh center at the
origin, surface representation and per-point data mode; and these
defaults survive any sequence of operations other than `set_view`,
`set_mode` and `update_mesh` (renders, resizes, texture queries). -/
theorem fresh_renderer_defaults (w h : ℤ) :
    isDefaultState (mkRenderer w h) ∧
    ∀ ops : List PassiveOp,
      isDefaultState (applyPassives (mkRenderer w h) ops) := by
  have hbase : isDefaultState (mkRenderer w h) :=
    ⟨rfl, rfl, rfl, rfl, rfl, rfl, rfl, rfl, rfl⟩
  refine ⟨hbase, ?_⟩
  have hall : ∀ (ops : List PassiveOp) (s : FoamState), isDefaultState s →
      isDefaultState (applyPassives s ops) := by
    intro ops
    induction ops with
    | nil => exact fun s hs => hs
    | cons op rest ih =>
      exact fun s hs => ih _ (passive_preserves_defaults s op hs)
  exact fun ops => hall ops _ hbase

-- C3 spec-side matrices.

/-- Spec-side: homogeneous rotation matrix about the X axis. -/
def rotXmatSpec (c s : ℚ) : Mat4 :=
  !![1, 0, 0, 0;
     0, c, -s, 0;
     0, s, c, 0;
     0, 0, 0, 1]

/-- Spec-side: homogeneous rotation matrix about the Y axis. -/
def rotYmatSpec (c s : ℚ) : Mat4 :=
  !![c, 0, s, 0;
     0, 1, 0, 0;
     -s, 0, c, 0;
     0, 0, 0, 1]

/-- C3: the model matrix built in `render` is
`translate(−mesh_center) · rotY(rotation_y) · rotX(rotation_x)` — a point
is first rotated about X, then about Y, then translated by the negated
mesh center; the view matrix is the translation by `(0, 0, −zoom)`; and
the projection matrix is the perspective projection with the fixed
45° vertical field of view (half-fov tangent `t`), aspect ratio
`width / height`, near plane `0.1` and far plane `10000`.  Every draw
command `render` issues carries exactly these three matrices. -/
theorem render_matrix_construction (rx ry : ℚ) (center : V3) (z : ℚ)
    (trig : ℚ → ℚ × ℚ) (p : V3) (w h : ℤ) (t : ℚ) (s : FoamState) :
    modelMatrix rx ry center trig =
      translationSpec (-center.1, -center.2.1, -center.2.2) *
        rotYmatSpec (trig ry).1 (trig ry).2 *
        rotXmatSpec (trig rx).1 (trig rx).2 ∧
    affineApply (modelMatrix rx ry center trig) p =
      ((rotYact (trig ry).1 (trig ry).2
          (rotXact (trig rx).1 (trig rx).2 p)).1 - center.1,
       (rotYact (trig ry).1 (trig ry).2
          (rotXact (trig rx).1 (trig rx).2 p)).2.1 - center.2.1,
       (rotYact (trig ry).1 (trig ry).2
          (rotXact (trig rx).1 (trig rx).2 p)).2.2 - center.2.2) ∧
    viewMatrix z = translationSpec (0, 0, -z) ∧
    affineApply (viewMatrix z) p = (p.1, p.2.1, p.2.2 - z) ∧
    projectionMatrix w h t =
      perspectiveSpec t ((w : ℚ) / (h : ℚ)) (1/10) 10000 ∧
    tracesUse (modelMatrix s.rotation_x s.rotation_y s.mesh_center trig)
      (viewMatrix s.zoom) (projectionMatrix s.width s.height t)
      ((render s trig t).2.2) := by
  refine ⟨?_, ?_, ?_, ?_, ?_, ?_⟩
  · ext i j
    fin_cases i <;> fin_cases j <;>
      simp [modelMatrix, glmRotate, glmTranslate, rodrigues, translationSpec,
        rotYmatSpec, rotXmatSpec, Matrix.mul_apply, Fin.sum_univ_four,
        Matrix.one_apply, Matrix.vecHead, Matrix.vecTail]
  · simp [affineApply, modelMatrix, glmRotate, glmTranslate, rodrigues,
      rotXact, rotYact, Matrix.mulVec, Matrix.dotProduct, Fin.sum_univ_four,
      Matrix.one_apply]
    refine ⟨by ring, by ring, by ring⟩
  · ext i j
    fin_cases i <;> fin_cases j <;>
      simp [viewMatrix, glmTranslate, translationSpec, Matrix.one_apply,
        Matrix.vecHead, Matrix.vecTail]
  · simp [affineApply, viewMatrix, glmTranslate, Matrix.mulVec,
      Matrix.dotProduct, Fin.sum_univ_four, Matrix.one_apply, sub_eq_add_neg]
  · ext i j
    fin_cases i <;> fin_cases j <;>
      simp [projectionMatrix, glmPerspective, perspectiveSpec,
        Matrix.vecHead, Matrix.vecTail]
  · by_cases hvc : s.vertex_count = 0 ∨ s.index_count = 0
    · intro c hc
      simp [render, hvc] at hc
      subst hc
      trivial
    · rcases hrep : s.representation with _ | _ | _ <;>
        · intro c hc
          simp [render, hvc, hrep] at hc
          rcases hc with rfl | rfl | rfl <;> trivial
